import Mathlib

/-!
Shallow embedding of the `react-hooks-docs-website` repository: a Nextra
documentation site consisting of a root layout shell (`src/app/layout.jsx`)
and a single optional catch-all page route
(`src/app/[[...mdxPath]]/page.jsx`), plus MDX content files.

Rendered React markup is modelled by the inductive type `Html`.  Functions
supplied by the external framework (nextra's `importPage` and `getPageMap`)
are treated as parameters of the repository's components; concrete
instantiations are provided for evaluation.  Asynchronous resolution
(`await`) of a value that may reject is modelled by `Except FrameworkError`.
-/

/-- Rendered markup: a text node, or an element with a tag name, a list of
attribute/value pairs, and a list of children. -/
inductive Html where
  | text : String → Html
  | elem : String → List (String × String) → List Html → Html

mutual

/-- Boolean equality test on rendered markup. -/
def Html.beq : Html → Html → Bool
  | .text s, .text t => s == t
  | .elem t a cs, .elem u b ds => t == u && a == b && Html.beqList cs ds
  | _, _ => false

/-- Boolean equality test on lists of rendered markup. -/
def Html.beqList : List Html → List Html → Bool
  | [], [] => true
  | c :: cs, d :: ds => Html.beq c d && Html.beqList cs ds
  | _, _ => false

end

mutual

theorem Html.beq_iff : ∀ a b : Html, (Html.beq a b = true) ↔ a = b
  | .text _, .text _ => by simp [Html.beq]
  | .text _, .elem .. => by simp [Html.beq]
  | .elem .., .text _ => by simp [Html.beq]
  | .elem t a cs, .elem u b ds => by
      simp [Html.beq, Html.beqList_iff cs ds, and_assoc]

theorem Html.beqList_iff : ∀ as bs : List Html, (Html.beqList as bs = true) ↔ as = bs
  | [], [] => by simp [Html.beqList]
  | [], _ :: _ => by simp [Html.beqList]
  | _ :: _, [] => by simp [Html.beqList]
  | c :: cs, d :: ds => by
      simp [Html.beqList, Html.beq_iff c d, Html.beqList_iff cs ds]

end

instance : DecidableEq Html := fun a b => decidable_of_iff _ (Html.beq_iff a b)

instance {ε α : Type} [DecidableEq ε] [DecidableEq α] :
    DecidableEq (Except ε α) := fun a b =>
  match a, b with
  | .ok x, .ok y => decidable_of_iff (x = y) (by simp)
  | .error e, .error f => decidable_of_iff (e = f) (by simp)
  | .ok _, .error _ => isFalse (by simp)
  | .error _, .ok _ => isFalse (by simp)

/-- A failure surfaced by the external framework: a not-found condition from
the content lookup, or any other framework failure. -/
inductive FrameworkError where
  | notFound
  | failure : String → FrameworkError
deriving DecidableEq

/-- Per-page metadata as read from a content file: a title and an optional
description (a content file with no frontmatter has no description). -/
structure Metadata where
  title : String
  description : Option String
deriving DecidableEq

/-- The value resolved by the content lookup for a path: the page metadata,
the rendered MDX body (the module's default export, already rendered), and
the table of contents. -/
structure PageData where
  metadata : Metadata
  toc : List String
  mdxContent : Html
deriving DecidableEq

/-- The route parameters object delivered to the page: the segments captured
by the optional catch-all pattern `[[...mdxPath]]`, absent (`none`) for the
site root. -/
structure RouteParams where
  mdxPath : Option (List String)
deriving DecidableEq

/-- The props object of the dynamic page: the (already resolved) route
parameters. -/
structure PageProps where
  params : RouteParams
deriving DecidableEq

/-- The head metadata object returned by `generateMetadata`. -/
structure HeadMetadata where
  title : String
  description : Option String
deriving DecidableEq

/-- The type of the external content lookup `importPage`: from an optional
path segments list to a resolved page or a framework failure. -/
abbrev ImportPage := Option (List String) → Except FrameworkError PageData

/-- From `src/app/[[...mdxPath]]/page.jsx` lines 6-13: `generateMetadata`
awaits the props' params, awaits the content lookup at `params.mdxPath`,
and returns the content's title concatenated with the fixed site suffix
together with the content's description unchanged. -/
def generateMetadata (importPage : ImportPage) (props : PageProps) :
    Except FrameworkError HeadMetadata := do
  let params := props.params
  let result ← importPage params.mdxPath
  pure { title := result.metadata.title ++ " | A Comprehensive Look at All React Hooks"
         description := result.metadata.description }

/-- Modelled from the spec (the code of `src/mdx-components` is not in the
sources): the `Wrapper` obtained from the MDX components is "a shared
rendering shell that places a content page's body and table of contents
into the overall site layout".  It renders its children followed by a nav
element listing the table-of-contents entries; the metadata prop is exposed
as an attribute of the shell. -/
def Wrapper (toc : List String) (metadata : Metadata) (children : List Html) : Html :=
  Html.elem "main" [("data-title", metadata.title)]
    (children ++ [Html.elem "nav" [] (toc.map Html.text)])

/-- From `src/app/[[...mdxPath]]/page.jsx` lines 17-26: the default export
`Page` awaits the props' params, awaits the content lookup at
`params.mdxPath`, destructures the result into the rendered MDX content,
the table of contents and the metadata, and renders the content inside the
`Wrapper`.  The rendered MDX body does not depend on the forwarded props. -/
def Page (importPage : ImportPage) (props : PageProps) :
    Except FrameworkError Html := do
  let params := props.params
  let result ← importPage params.mdxPath
  pure (Wrapper result.toc result.metadata [result.mdxContent])

/-- The decimal digit characters, as JavaScript's number-to-string
conversion produces them. -/
def digitChar (d : Nat) : Char :=
  match d with
  | 0 => '0' | 1 => '1' | 2 => '2' | 3 => '3' | 4 => '4'
  | 5 => '5' | 6 => '6' | 7 => '7' | 8 => '8' | _ => '9'

/-- Numeric value of a decimal digit character. -/
def digitVal (c : Char) : Nat := c.toNat - 48

/-- Fuelled computation of the decimal digits of a natural number, most
significant first; any fuel of at least `n` yields the digits of `n`. -/
def natDigitsAux (fuel : Nat) (n : Nat) : List Nat :=
  match fuel with
  | 0 => []
  | fuel + 1 => if n = 0 then [] else natDigitsAux fuel (n / 10) ++ [n % 10]

/-- The decimal digits of a natural number, most significant first
(empty for zero). -/
def natDigits (n : Nat) : List Nat := natDigitsAux n n

/-- The value denoted by a most-significant-first decimal digit list. -/
def digitsVal (l : List Nat) : Nat := l.foldl (fun a d => 10 * a + d) 0

/-- The decimal character rendering of a natural number, as JavaScript's
string conversion of a number produces it. -/
def natChars (n : Nat) : List Char :=
  if n = 0 then ['0'] else (natDigits n).map digitChar

/-- JavaScript number-to-string conversion for natural numbers. -/
def natToString (n : Nat) : String := String.mk (natChars n)

theorem digitsVal_append (l : List Nat) (d : Nat) :
    digitsVal (l ++ [d]) = 10 * digitsVal l + d := by
  simp [digitsVal, List.foldl_append]

theorem digitsVal_natDigitsAux :
    ∀ fuel n : Nat, n ≤ fuel → digitsVal (natDigitsAux fuel n) = n := by
  intro fuel
  induction fuel with
  | zero => intro n h; simp only [natDigitsAux, digitsVal, List.foldl_nil]; omega
  | succ f ih =>
    intro n h
    simp only [natDigitsAux]
    split
    next h0 => simp [digitsVal, h0]
    next h0 =>
      rw [digitsVal_append, ih (n / 10) (by omega)]
      omega

theorem digitsVal_natDigits (n : Nat) : digitsVal (natDigits n) = n :=
  digitsVal_natDigitsAux n n (Nat.le_refl n)

theorem natDigitsAux_lt :
    ∀ fuel n : Nat, ∀ d ∈ natDigitsAux fuel n, d < 10 := by
  intro fuel
  induction fuel with
  | zero => intro n d hd; simp [natDigitsAux] at hd
  | succ f ih =>
    intro n d hd
    simp only [natDigitsAux] at hd
    split at hd
    next => simp at hd
    next =>
      rcases List.mem_append.mp hd with h1 | h2
      · exact ih (n / 10) d h1
      · rw [List.mem_singleton.mp h2]; omega

theorem natDigits_lt (n : Nat) : ∀ d ∈ natDigits n, d < 10 :=
  natDigitsAux_lt n n

theorem digitVal_digitChar {d : Nat} (h : d < 10) : digitVal (digitChar d) = d := by
  interval_cases d <;> rfl

theorem map_digitVal_digitChar {l : List Nat} (hl : ∀ d ∈ l, d < 10) :
    (l.map digitChar).map digitVal = l := by
  rw [List.map_map]
  calc l.map (digitVal ∘ digitChar)
      = l.map id := List.map_congr_left fun d hd => digitVal_digitChar (hl d hd)
    _ = l := List.map_id l

theorem natChars_inj {m n : Nat} (h : natChars m = natChars n) : m = n := by
  unfold natChars at h
  by_cases hm : m = 0 <;> by_cases hn : n = 0
  · omega
  · exfalso
    simp only [hm, hn, if_true, if_false, if_pos, if_neg, not_false_iff] at h
    have h2 := congrArg (List.map digitVal) h
    rw [map_digitVal_digitChar (natDigits_lt n)] at h2
    have h3 := congrArg digitsVal h2
    rw [digitsVal_natDigits] at h3
    have h0 : digitsVal (List.map digitVal ['0']) = 0 := by decide
    omega
  · exfalso
    simp only [hm, hn, if_true, if_false, if_pos, if_neg, not_false_iff] at h
    have h2 := congrArg (List.map digitVal) h.symm
    rw [map_digitVal_digitChar (natDigits_lt m)] at h2
    have h3 := congrArg digitsVal h2
    rw [digitsVal_natDigits] at h3
    have h0 : digitsVal (List.map digitVal ['0']) = 0 := by decide
    omega
  · simp only [hm, hn, if_false, if_neg, not_false_iff] at h
    have h2 := congrArg (List.map digitVal) h
    rw [map_digitVal_digitChar (natDigits_lt m),
        map_digitVal_digitChar (natDigits_lt n)] at h2
    calc m = digitsVal (natDigits m) := (digitsVal_natDigits m).symm
      _ = digitsVal (natDigits n) := congrArg digitsVal h2
      _ = n := digitsVal_natDigits n

theorem natToString_inj {m n : Nat} (h : natToString m = natToString n) : m = n :=
  natChars_inj (congrArg String.data h)

/-- An entry of the page map produced by the external framework: a route
name and its route path. -/
structure PageMapItem where
  name : String
  route : String
deriving DecidableEq

/-- Modelled external component `Banner` from `nextra/components`: renders
its children in a banner element carrying the storage key. -/
def Banner (storageKey : String) (children : List Html) : Html :=
  Html.elem "banner" [("storageKey", storageKey)] children

/-- Modelled external component `Navbar` from `nextra-theme-docs`: renders
the logo prop inside a navigation bar element. -/
def Navbar (logo : Html) : Html :=
  Html.elem "header" [] [logo]

/-- Modelled external component `Footer` from `nextra-theme-docs`: renders
its children in a footer element. -/
def Footer (children : List Html) : Html :=
  Html.elem "footer" [] children

/-- From `src/app/layout.jsx` lines 8-11: the sans font's CSS variable. -/
def geistSansVariable : String := "--font-geist-sans"

/-- From `src/app/layout.jsx` lines 13-16: the mono font's CSS variable. -/
def geistMonoVariable : String := "--font-geist-mono"

/-- From `src/app/layout.jsx` lines 24-26: the banner element. -/
def banner : Html :=
  Banner "1234567890" [Html.text "Get the offical eBook 🎉"]

/-- From `src/app/layout.jsx` line 28: the navbar element with its bold
logo. -/
def navbar : Html :=
  Navbar (Html.elem "b" [] [Html.text "A Comprehensive Look At All React Hooks"])

/-- From `src/app/layout.jsx` lines 30-32: the footer element, created once
at module initialization; its JSX children are the text "MIT ", the result
of `new Date().getFullYear()` (the calendar year at module initialization,
passed here explicitly as `initYear`), and the text " © Thomas Sankara". -/
def footer (initYear : Nat) : Html :=
  Footer [Html.text "MIT ", Html.text (natToString initYear),
          Html.text " © Thomas Sankara"]

/-- Modelled external component `Layout` from `nextra-theme-docs`: the
documentation shell renders, in order, the banner prop, the navbar prop, a
sidebar generated from the page map prop, the current page (its children)
and the footer prop, with the docs repository base exposed as an
attribute. -/
def Layout (bannerProp navbarProp : Html) (pageMap : List PageMapItem)
    (docsRepositoryBase : String) (footerProp : Html) (children : Html) : Html :=
  Html.elem "div" [("data-repository-base", docsRepositoryBase)]
    [bannerProp, navbarProp,
     Html.elem "aside" []
       (pageMap.map fun i => Html.elem "a" [("href", i.route)] [Html.text i.name]),
     children, footerProp]

/-- From `src/app/layout.jsx` lines 40-52: the class string of the body
element, built from the two font variables. -/
def bodyClassName : String :=
  geistSansVariable ++ " " ++ geistMonoVariable ++ " antialiased"

/-- From `src/app/layout.jsx` lines 34-52: the root layout awaits
`getPageMap()` (resolved page map or rejection, modelled by `Except`) and
renders the html/body document with the `Layout` shell around its
children.  `initYear` is the calendar year read at module initialization
by the footer element. -/
def RootLayout (initYear : Nat)
    (getPageMap : Except FrameworkError (List PageMapItem))
    (children : Html) : Except FrameworkError Html := do
  let pageMap ← getPageMap
  pure (Html.elem "html" [("lang", "en"), ("dir", "ltr")]
    [Html.elem "body" [("class", bodyClassName)]
      [Layout banner navbar pageMap
        "https://github.com/sankthomas/a-comprehensive-look-at-all-react-hooks"
        (footer initYear) children]])

/-- The ambient clock state of one server process: the calendar year read
when the layout module is initialized, and the clock reading at request
time (never read by the code of this repository). -/
structure World where
  initYear : Nat
  requestClock : Nat
deriving DecidableEq

/-- One full render of a request: the dynamic page resolves its content,
then the root layout wraps the page in the site chrome. -/
def renderRequest (w : World)
    (getPageMap : Except FrameworkError (List PageMapItem))
    (importPage : ImportPage) (props : PageProps) :
    Except FrameworkError Html := do
  let page ← Page importPage props
  RootLayout w.initYear getPageMap page

mutual

/-- All nodes of a markup tree, the tree itself included. -/
def Html.subterms : Html → List Html
  | .text s => [.text s]
  | .elem t a cs => .elem t a cs :: Html.subtermsList cs

/-- All nodes of the trees in a list of markup trees. -/
def Html.subtermsList : List Html → List Html
  | [] => []
  | c :: cs => Html.subterms c ++ Html.subtermsList cs

end

mutual

/-- The concatenated text of a markup tree. -/
def Html.textContent : Html → String
  | .text s => s
  | .elem _ _ cs => Html.textContentList cs

/-- The concatenated text of a list of markup trees. -/
def Html.textContentList : List Html → String
  | [] => ""
  | c :: cs => Html.textContent c ++ Html.textContentList cs

end

theorem self_mem_subterms (h : Html) : h ∈ Html.subterms h := by
  cases h <;> simp [Html.subterms]

theorem mem_subtermsList_of_mem {c : Html} {cs : List Html} (hc : c ∈ cs)
    {t : Html} (ht : t ∈ Html.subterms c) : t ∈ Html.subtermsList cs := by
  induction cs with
  | nil => cases hc
  | cons d ds ihd =>
    rw [Html.subtermsList]
    rcases List.mem_cons.mp hc with rfl | h2
    · exact List.mem_append.mpr (Or.inl ht)
    · exact List.mem_append.mpr (Or.inr (ihd h2))

theorem mem_subterms_elem {t c : Html} {cs : List Html} (hc : c ∈ cs)
    (ht : t ∈ Html.subterms c) (tag : String) (attrs : List (String × String)) :
    t ∈ Html.subterms (Html.elem tag attrs cs) := by
  rw [Html.subterms]
  exact List.mem_cons.mpr (Or.inr (mem_subtermsList_of_mem hc ht))

/-- The page routes declared by the `src/app` directory: it contains exactly
one page route, the optional catch-all directory `[[...mdxPath]]`. -/
def appRoutes : List String := ["[[...mdxPath]]"]

/-- Modelled from the route pattern in the source: `[[...mdxPath]]` is an
optional catch-all segment, so the framework delivers the URL's path
segments as the `mdxPath` param, absent when the URL has no path
segments. -/
def captureMdxPath (segments : List String) : Option (List String) :=
  if segments.isEmpty then none else some segments

/-- A content file of the repository as the embedding sees it: the title
text of its single leading level-one heading, the optional frontmatter
description (no content file of this repository has one), the level-two
heading texts that form its table of contents, and the rendered prose
after the heading (treated as opaque by the spec and omitted here). -/
structure ContentFile where
  title : String
  description : Option String
  tocEntries : List String
  bodyRest : List Html
deriving DecidableEq

/-- The rendered MDX body of a content file: every content file of the
repository opens with a level-one heading holding its title, followed by
its prose. -/
def renderMdx (c : ContentFile) : Html :=
  Html.elem "article" [] (Html.elem "h1" [] [Html.text c.title] :: c.bodyRest)

/-- The page data the external lookup resolves for a content file: nextra
derives the page's metadata title from the file's first level-one heading
when the file has no frontmatter, as for every file of this repository. -/
def pageDataOf (c : ContentFile) : PageData :=
  { metadata := { title := c.title, description := c.description }
    toc := c.tocEntries
    mdxContent := renderMdx c }

/-- Concrete model of the external lookup `importPage` over a table of
content routes: the absent path of the site root is looked up as the empty
path, and a path with no matching content file is a not-found rejection. -/
def importPageImpl (pages : List (List String × ContentFile)) : ImportPage :=
  fun mdxPath =>
    match pages.find? (fun e => e.1 == mdxPath.getD []) with
    | some e => .ok (pageDataOf e.2)
    | none => .error .notFound

/-- The named content files under `src/content`, with the titles of their
leading level-one headings and their level-two headings, keyed by the
routes the framework derives from their file names. -/
def sitePages : List (List String × ContentFile) :=
  [ (["what-are-hooks"],
     ⟨"What Are Hooks?", none, [], []⟩),
    (["custom-hooks"],
     ⟨"Custom Hooks", none, [], []⟩),
    (["usecallback"],
     ⟨"useCallback", none, [], []⟩),
    (["usecontext"],
     ⟨"useContext", none,
      ["A section about Props", "Accessing props", "When to use Context",
       "Setting up the Context API", "Passing context to our parent component"], []⟩),
    (["usedebugvalue"],
     ⟨"useDebugValue", none, ["React DevTools", "Syntax"], []⟩),
    (["useid"],
     ⟨"useId", none, ["What about UUID?", "Syntax", "Examples"], []⟩),
    (["useinsertioneffect"],
     ⟨"useInsertionEffect", none, ["When to use it", "Syntax"], []⟩),
    (["useparams"],
     ⟨"useParams", none, ["Examples"], []⟩),
    (["usepathname"],
     ⟨"usePathname", none, ["Use cases", "Examples"], []⟩) ]

/-- The footer text shown for a process whose layout module was initialized
in calendar year `y`. -/
def footerText (y : Nat) : String :=
  "MIT " ++ natToString y ++ " © Thomas Sankara"

theorem data_append (a b : String) : (a ++ b).data = a.data ++ b.data := rfl

theorem string_ne_empty_of_left {a b : String} (ha : a ≠ "") : a ++ b ≠ "" := by
  intro hcontra
  apply ha
  have hd := congrArg String.data hcontra
  rw [data_append] at hd
  exact String.ext (List.append_eq_nil.mp hd).1

theorem footerText_inj {y y' : Nat} (h : footerText y = footerText y') : y = y' := by
  unfold footerText at h
  have hd := congrArg String.data h
  rw [data_append, data_append, data_append, data_append] at hd
  exact natChars_inj (List.append_cancel_left (List.append_cancel_right hd))

theorem textContent_footer (y : Nat) : (footer y).textContent = footerText y := by
  simp [footer, Footer, Html.textContent, Html.textContentList, footerText,
    String.append_assoc]

theorem mem_subterms_wrap {t c : Html} (tag : String)
    (attrs : List (String × String)) (ht : t ∈ c.subterms) :
    t ∈ (Html.elem tag attrs [c]).subterms :=
  mem_subterms_elem (List.mem_singleton_self c) ht tag attrs

theorem mem_subterms_Layout {x bP nP fP ch : Html} {pm : List PageMapItem}
    {repo : String} (hx : x = bP ∨ x = nP ∨ x = ch ∨ x = fP) :
    x ∈ (Layout bP nP pm repo fP ch).subterms := by
  rw [Layout]
  rcases hx with rfl | rfl | rfl | rfl <;>
    exact mem_subterms_elem (by simp) (self_mem_subterms _) _ _

mutual

theorem text_mem_length : ∀ (t : Html) (s : String),
    Html.text s ∈ t.subterms → s.length ≤ t.textContent.length
  | .text s', s => by
      simp only [Html.subterms, Html.textContent, List.mem_singleton]
      intro h
      rw [(Html.text.inj h).symm]
  | .elem t a cs, s => by
      simp only [Html.subterms, Html.textContent, List.mem_cons]
      rintro (h | h)
      · cases h
      · exact textList_mem_length cs s h

theorem textList_mem_length : ∀ (cs : List Html) (s : String),
    Html.text s ∈ Html.subtermsList cs →
      s.length ≤ (Html.textContentList cs).length
  | [], s => by simp [Html.subtermsList]
  | c :: cs, s => by
      simp only [Html.subtermsList, Html.textContentList, List.mem_append]
      rintro (h | h)
      · calc s.length ≤ c.textContent.length := text_mem_length c s h
          _ ≤ _ := by rw [String.length_append]; omega
      · calc s.length ≤ (Html.textContentList cs).length :=
            textList_mem_length cs s h
          _ ≤ _ := by rw [String.length_append]; omega

end

theorem textContent_ne_empty {t : Html} {s : String} (hs : s ≠ "")
    (hm : Html.text s ∈ t.subterms) : t.textContent ≠ "" := by
  intro h0
  apply hs
  have hl := text_mem_length t s hm
  rw [h0] at hl
  have hz : s.length = 0 := Nat.le_zero.mp hl
  exact String.ext (List.length_eq_zero.mp hz)

/-- Looking a path up in a table of content routes. -/
def lookupContent (pages : List (List String × ContentFile))
    (path : List String) : Option ContentFile :=
  (pages.find? fun e => e.1 == path).map Prod.snd

theorem importPageImpl_eq_of_lookup {pages : List (List String × ContentFile)}
    {path : List String} {c : ContentFile}
    (h : lookupContent pages path = some c) :
    importPageImpl pages (some path) = .ok (pageDataOf c) := by
  unfold lookupContent at h
  unfold importPageImpl
  simp only [Option.getD]
  cases hf : pages.find? fun e => e.1 == path with
  | none =>
    rw [hf] at h
    simp at h
  | some e =>
    rw [hf] at h
    simp at h
    simp [hf, h]

/-- C1: for every content page resolved by the dynamic route handler, the
page title returned by `generateMetadata` equals the content file's own
metadata title concatenated with the fixed site suffix
" | A Comprehensive Look at All React Hooks". -/
theorem c1_generateMetadata_title (f : ImportPage) (props : PageProps)
    (pd : PageData) (h : f props.params.mdxPath = .ok pd) :
    (generateMetadata f props).map HeadMetadata.title =
      .ok (pd.metadata.title ++ " | A Comprehensive Look at All React Hooks") := by
  simp [generateMetadata, h, Except.map]

/-- Witness for C1 at the registered path `useid`. -/
theorem c1_witness :
    (generateMetadata (importPageImpl sitePages) ⟨⟨some ["useid"]⟩⟩).map
        HeadMetadata.title =
      .ok ("useId" ++ " | A Comprehensive Look at All React Hooks") :=
  c1_generateMetadata_title (importPageImpl sitePages) ⟨⟨some ["useid"]⟩⟩
    (pageDataOf ⟨"useId", none, ["What about UUID?", "Syntax", "Examples"], []⟩)
    (by decide)

/-- C2: for every content page resolved by the dynamic route handler, the
description returned by `generateMetadata` is the content file's metadata
description passed through unchanged. -/
theorem c2_generateMetadata_description (f : ImportPage) (props : PageProps)
    (pd : PageData) (h : f props.params.mdxPath = .ok pd) :
    (generateMetadata f props).map HeadMetadata.description =
      .ok pd.metadata.description := by
  simp [generateMetadata, h, Except.map]

/-- Witness for C2 at the registered path `usedebugvalue`. -/
theorem c2_witness :
    (generateMetadata (importPageImpl sitePages) ⟨⟨some ["usedebugvalue"]⟩⟩).map
        HeadMetadata.description = .ok none :=
  c2_generateMetadata_description (importPageImpl sitePages)
    ⟨⟨some ["usedebugvalue"]⟩⟩
    (pageDataOf ⟨"useDebugValue", none, ["React DevTools", "Syntax"], []⟩)
    (by decide)

/-- C3: for every children value supplied to the root layout (and every
page map and module-initialization year), the rendered document contains
the banner, the navbar, and the footer. -/
theorem c3_rootLayout_chrome (initYear : Nat) (pageMap : List PageMapItem)
    (children : Html) :
    ∃ doc, RootLayout initYear (.ok pageMap) children = .ok doc ∧
      banner ∈ doc.subterms ∧ navbar ∈ doc.subterms ∧
      footer initYear ∈ doc.subterms := by
  refine ⟨_, rfl, ?_, ?_, ?_⟩ <;>
    exact mem_subterms_wrap _ _ (mem_subterms_wrap _ _
      (mem_subterms_Layout (by simp)))

/-- C4: for every content path registered in the page map, the dynamic page
renderer produces an output that carries the content's title in a leading
level-one heading, and whose text is non-empty whenever the title is. -/
theorem c4_registered_path_renders_title
    (pages : List (List String × ContentFile)) (path : List String)
    (c : ContentFile) (h : lookupContent pages path = some c) :
    ∃ out, Page (importPageImpl pages) ⟨⟨some path⟩⟩ = .ok out ∧
      Html.elem "h1" [] [Html.text c.title] ∈ out.subterms ∧
      (c.title ≠ "" → out.textContent ≠ "") := by
  have hip := importPageImpl_eq_of_lookup h
  refine ⟨Wrapper (pageDataOf c).toc (pageDataOf c).metadata
      [(pageDataOf c).mdxContent], by simp [Page, hip], ?_, ?_⟩
  · rw [Wrapper]
    refine mem_subterms_elem (c := renderMdx c) ?_ ?_ _ _
    · simp [pageDataOf]
    · rw [renderMdx]
      exact mem_subterms_elem (List.mem_cons_self _ _) (self_mem_subterms _) _ _
  · intro htitle
    refine textContent_ne_empty htitle ?_
    rw [Wrapper]
    refine mem_subterms_elem (c := renderMdx c) ?_ ?_ _ _
    · simp [pageDataOf]
    · rw [renderMdx]
      exact mem_subterms_elem (List.mem_cons_self _ _)
        (mem_subterms_wrap _ _ (self_mem_subterms _)) _ _

/-- Witness for C4 at the registered path `useid` of the site's content
table. -/
theorem c4_witness :
    ∃ out, Page (importPageImpl sitePages) ⟨⟨some ["useid"]⟩⟩ = .ok out ∧
      Html.elem "h1" [] [Html.text "useId"] ∈ out.subterms ∧
      ("useId" ≠ "" → out.textContent ≠ "") :=
  c4_registered_path_renders_title sitePages ["useid"]
    ⟨"useId", none, ["What about UUID?", "Syntax", "Examples"], []⟩
    (by decide)

/-- C5: no operation of the repository catches, retries, or transforms an
error: a rejection of the content lookup propagates unchanged out of both
`generateMetadata` and `Page`, and a rejection of the page-map retrieval
propagates unchanged out of `RootLayout`. -/
theorem c5_errors_propagate_unchanged :
    (∀ (f : ImportPage) (props : PageProps) (e : FrameworkError),
      f props.params.mdxPath = .error e →
        generateMetadata f props = .error e ∧ Page f props = .error e) ∧
    (∀ (initYear : Nat) (e : FrameworkError) (children : Html),
      RootLayout initYear (.error e) children = .error e) := by
  constructor
  · intro f props e h
    constructor <;> simp [generateMetadata, Page, h]
  · intro initYear e children
    rfl

/-- Witness for C5: the not-found rejection at an unregistered path
propagates out of `generateMetadata` and `Page`. -/
theorem c5_witness :
    generateMetadata (importPageImpl sitePages) ⟨⟨some ["missing"]⟩⟩ =
        .error .notFound ∧
      Page (importPageImpl sitePages) ⟨⟨some ["missing"]⟩⟩ =
        .error .notFound :=
  c5_errors_propagate_unchanged.1 (importPageImpl sitePages)
    ⟨⟨some ["missing"]⟩⟩ .notFound (by decide)

/-- C6: the route surface is the single optional catch-all pattern
`[[...mdxPath]]`, and the handler passes the captured path segments list
verbatim to the content lookup: the behaviour of `Page` and
`generateMetadata` depends on the lookup only through its value at exactly
the captured `mdxPath`. -/
theorem c6_single_catch_all_verbatim :
    appRoutes = ["[[...mdxPath]]"] ∧
    ∀ (f g : ImportPage) (props : PageProps),
      f props.params.mdxPath = g props.params.mdxPath →
        Page f props = Page g props ∧
        generateMetadata f props = generateMetadata g props := by
  refine ⟨rfl, ?_⟩
  intro f g props h
  constructor <;> simp [Page, generateMetadata, h]

/-- Witness for C6: the page at `useid` is unchanged when the lookup is
replaced by one agreeing with it at the captured path only. -/
theorem c6_witness :
    Page (importPageImpl sitePages) ⟨⟨some ["useid"]⟩⟩ =
      Page (fun _ => importPageImpl sitePages (some ["useid"]))
        ⟨⟨some ["useid"]⟩⟩ :=
  (c6_single_catch_all_verbatim.2 (importPageImpl sitePages)
    (fun _ => importPageImpl sitePages (some ["useid"]))
    ⟨⟨some ["useid"]⟩⟩ rfl).1

/-- C7 counterexample: the claim as stated is false on the code.  Two
renders given the same path segments list and the same underlying content
files, but whose layout modules were initialized in different calendar
years, produce different output: the footer year differs. -/
theorem c7_counterexample :
    renderRequest ⟨2024, 0⟩ (.ok []) (importPageImpl sitePages)
        ⟨⟨some ["useid"]⟩⟩ ≠
      renderRequest ⟨2025, 0⟩ (.ok []) (importPageImpl sitePages)
        ⟨⟨some ["useid"]⟩⟩ := by
  decide

/-- C7 (amended): page rendering is deterministic with no shared mutable
state: any two renders given the same path segments list, the same
underlying content files and page map, and the same module-initialization
year produce identical output; in particular the request-time clock never
influences the output. -/
theorem c7_render_deterministic (w w' : World) (h : w.initYear = w'.initYear)
    (getPageMap : Except FrameworkError (List PageMapItem))
    (f : ImportPage) (props : PageProps) :
    renderRequest w getPageMap f props =
      renderRequest w' getPageMap f props := by
  simp [renderRequest, RootLayout, h]

/-- Witness for C7 (amended): two renders in the same process at different
request times agree. -/
theorem c7_witness :
    renderRequest ⟨2025, 0⟩ (.ok []) (importPageImpl sitePages)
        ⟨⟨some ["useid"]⟩⟩ =
      renderRequest ⟨2025, 99⟩ (.ok []) (importPageImpl sitePages)
        ⟨⟨some ["useid"]⟩⟩ :=
  c7_render_deterministic ⟨2025, 0⟩ ⟨2025, 99⟩ rfl (.ok [])
    (importPageImpl sitePages) ⟨⟨some ["useid"]⟩⟩

/-- C8: the catch-all route is optional: the site root is served by the
same handler with an absent (`none`) `mdxPath` param, the handler's
behaviour there depends on the lookup only through its value at `none`,
and the modelled lookup is total at this empty input, resolving it to the
empty path: it either succeeds or reports a plain not-found rejection. -/
theorem c8_optional_catch_all_root :
    captureMdxPath [] = none ∧
    (∀ f g : ImportPage, f none = g none →
      Page f ⟨⟨captureMdxPath []⟩⟩ = Page g ⟨⟨captureMdxPath []⟩⟩) ∧
    (∀ pages : List (List String × ContentFile),
      importPageImpl pages none = importPageImpl pages (some []) ∧
      ((∃ pd, importPageImpl pages none = .ok pd) ∨
        importPageImpl pages none = .error .notFound)) := by
  refine ⟨rfl, ?_, ?_⟩
  · intro f g h
    simp [Page, captureMdxPath, h]
  · intro pages
    refine ⟨rfl, ?_⟩
    unfold importPageImpl
    cases hf : pages.find? fun e => e.1 == (none : Option (List String)).getD [] with
    | none => right; simp [hf]
    | some e => left; exact ⟨pageDataOf e.2, by simp [hf]⟩

/-- Witness for C8: at the site root the handler behaves identically under
the site lookup and under any lookup agreeing with it at the absent
path. -/
theorem c8_witness :
    Page (importPageImpl sitePages) ⟨⟨captureMdxPath []⟩⟩ =
      Page (fun _ => .error .notFound) ⟨⟨captureMdxPath []⟩⟩ :=
  c8_optional_catch_all_root.2.1 (importPageImpl sitePages)
    (fun _ => .error .notFound) (by decide)

/-- C9: the footer's copyright year is read from the clock once at module
initialization, not per render: every successful render of a process whose
layout module was initialized in year `initYear` contains the very footer
element built from `initYear`, whose text is "MIT <initYear> © Thomas
Sankara"; and processes initialized in different calendar years show
different footer text. -/
theorem c9_footer_year_module_init :
    (∀ (w : World) (gpm : Except FrameworkError (List PageMapItem))
        (f : ImportPage) (props : PageProps) (doc : Html),
      renderRequest w gpm f props = .ok doc →
        footer w.initYear ∈ doc.subterms ∧
        (footer w.initYear).textContent =
          "MIT " ++ natToString w.initYear ++ " © Thomas Sankara") ∧
    (∀ y y' : Nat, y ≠ y' →
      (footer y).textContent ≠ (footer y').textContent) := by
  constructor
  · intro w gpm f props doc h
    refine ⟨?_, textContent_footer w.initYear⟩
    unfold renderRequest at h
    cases hp : Page f props with
    | error e => rw [hp] at h; cases h
    | ok page =>
      rw [hp] at h
      cases gpm with
      | error e => cases h
      | ok pm =>
        have hdoc := Except.ok.inj h
        rw [← hdoc]
        exact mem_subterms_wrap _ _ (mem_subterms_wrap _ _
          (mem_subterms_Layout (by simp)))
  · intro y y' hne hcontra
    apply hne
    rw [textContent_footer, textContent_footer] at hcontra
    exact footerText_inj hcontra

/-- Witness for C9: processes initialized in 2024 and 2025 show different
footer text. -/
theorem c9_witness :
    (footer 2024).textContent ≠ (footer 2025).textContent :=
  c9_footer_year_module_init.2 2024 2025 (by decide)

/-- C10: `generateMetadata` and `Page` both invoke the content lookup at
exactly the same captured path segments list, so (the lookup being a
function of the path) the title and description placed in the page head
are computed from the same resolved content whose body is rendered in the
page. -/
theorem c10_head_agrees_with_body (f : ImportPage) (props : PageProps)
    (pd : PageData) (h : f props.params.mdxPath = .ok pd) :
    generateMetadata f props =
      .ok { title :=
              pd.metadata.title ++ " | A Comprehensive Look at All React Hooks"
            description := pd.metadata.description } ∧
    Page f props = .ok (Wrapper pd.toc pd.metadata [pd.mdxContent]) := by
  constructor <;> simp [generateMetadata, Page, h]

/-- Witness for C10 at the registered path `usepathname`. -/
theorem c10_witness :
    generateMetadata (importPageImpl sitePages) ⟨⟨some ["usepathname"]⟩⟩ =
      .ok { title := "usePathname | A Comprehensive Look at All React Hooks"
            description := none } ∧
    Page (importPageImpl sitePages) ⟨⟨some ["usepathname"]⟩⟩ =
      .ok (Wrapper ["Use cases", "Examples"] ⟨"usePathname", none⟩
        [renderMdx ⟨"usePathname", none, ["Use cases", "Examples"], []⟩]) := by
  have h := c10_head_agrees_with_body (importPageImpl sitePages)
    ⟨⟨some ["usepathname"]⟩⟩
    (pageDataOf ⟨"usePathname", none, ["Use cases", "Examples"], []⟩)
    (by decide)
  simpa [pageDataOf] using h
